import Mathlib

/-!
Shallow embedding of the Todo-App backend (FastAPI + Prisma).

Source files embedded:
- `app/routes/auth.py`   — register, login, refresh, logout handlers
- `app/routes/todos.py`  — list, create, update, delete handlers
- `app/core/dependencies.py` — token extraction and the authentication gate
- `app/schemas/todo.py`, `app/schemas/user.py` — request/response shapes
- `app/core/config.py`   — the settings surface the handlers read

The JWT codec (`app/utils/jwt_handler.py`) and the password hasher
(`app/utils/password.py`) are imported by the routes but are not among the
provided source files; the codec is modelled from the spec (§4.2 Token
Codec) and the hasher is kept abstract (handlers are parametric in it).

Timestamps (`datetime` values) are modelled as `Int` (epoch seconds).
Database records live in an explicit `DB` state; Prisma calls become pure
lookups/updates on that state. HTTP exceptions become an `HTTPError`
value carrying the status code and the `detail` string.
-/

namespace TodoApp

/-- A decoded JWT payload: the claims `sub` (subject, may be absent),
`type` (the token-type tag written by the issuer) and `exp` (expiry). -/
structure Payload where
  sub : Option String
  type : String
  exp : Int
deriving DecidableEq, Repr

/-- A parsed token: its payload together with the secret it was signed
with. Signature validity is modelled as "signed with the server's
secret"; tampering with the payload is modelled by the fact that a
decoded token determines its payload. -/
structure Token where
  payload : Payload
  secret : String
deriving DecidableEq, Repr

/-- An HTTPException: status code plus the `detail` message sent to the
caller. -/
structure HTTPError where
  status : Nat
  detail : String
deriving DecidableEq, Repr

/-- A stored User record (Prisma `User` model). -/
structure User where
  id : String
  email : String
  password : String
  createdAt : Int
deriving DecidableEq, Repr

/-- A stored Todo record (Prisma `Todo` model). -/
structure Todo where
  id : String
  title : String
  completed : Bool
  dueDate : Option Int
  pinned : Bool
  userId : String
  createdAt : Int
deriving DecidableEq, Repr

/-- The database state: the two Prisma collections. -/
structure DB where
  users : List User
  todos : List Todo
deriving DecidableEq, Repr

/-- The settings surface read by the handlers (`app/core/config.py`). -/
structure Settings where
  SECRET_KEY : String
  ACCESS_TOKEN_EXPIRE_MINUTES : Int
  REFRESH_TOKEN_EXPIRE_DAYS : Int
  COOKIE_SECURE : Bool
  COOKIE_SAMESITE : String
deriving DecidableEq, Repr

/-- A cookie as set by `response.set_cookie` with the attributes the
handlers pass. -/
structure Cookie where
  key : String
  value : String
  httponly : Bool
  secure : Bool
  samesite : String
  max_age : Int
  path : String
deriving DecidableEq, Repr

/-- Response body of login/refresh (`TokenResponse` in
`app/schemas/user.py`). -/
structure TokenResponse where
  access_token : String
  refresh_token : String
  token_type : String
deriving DecidableEq, Repr

/-- Response body of register (`UserResponse` in `app/schemas/user.py`):
the created user without the password. -/
structure UserResponse where
  id : String
  email : String
  createdAt : Int
deriving DecidableEq, Repr

/-- A handler response carrying a body plus the cookies the handler set on
the `Response` object. -/
structure AuthResponse where
  body : TokenResponse
  cookies_set : List Cookie
deriving DecidableEq, Repr

/-- Request body of POST /todos (`TodoCreate` in `app/schemas/todo.py`).
The schema has exactly these four fields; there is no `userId` field a
client could supply. -/
structure TodoCreate where
  title : String
  completed : Bool := false
  dueDate : Option Int := none
  pinned : Bool := false
deriving DecidableEq, Repr

/-- Request body of PUT /todos/{id} (`TodoUpdate` in
`app/schemas/todo.py`). Every field is `Optional[...] = None`, so an
omitted field and a field explicitly supplied as JSON `null` both arrive
as `none`. -/
structure TodoUpdate where
  title : Option String := none
  completed : Option Bool := none
  dueDate : Option Int := none
  pinned : Option Bool := none
deriving DecidableEq, Repr

/-- The parts of an incoming request the authentication gate reads: the
cookie jar and the raw `Authorization` header. -/
structure AuthRequest where
  cookies : List (String × String)
  authorization : Option String
deriving DecidableEq, Repr

/-! Prisma collaborators, as the handlers use them. -/

/-- `prisma.user.find_unique(where={"email": e})`: exact-match lookup. -/
def findUserByEmail (db : DB) (email : String) : Option User :=
  db.users.find? (fun u => u.email == email)

/-- `prisma.user.find_unique(where={"id": i})`. -/
def findUserById (db : DB) (id : String) : Option User :=
  db.users.find? (fun u => u.id == id)

/-- `prisma.todo.find_unique(where={"id": i})`. -/
def findTodoById (db : DB) (id : String) : Option Todo :=
  db.todos.find? (fun t => t.id == id)

/-- `request.cookies.get(k)`. -/
def lookupCookie (cookies : List (String × String)) (k : String) : Option String :=
  (cookies.find? (fun p => p.1 == k)).map Prod.snd

/-! The token codec. -/

/-- Modelled from the spec: `verify_token(token, token_type)` lives in
`app/utils/jwt_handler.py`, which is not among the provided source files
(only its callers in `app/routes/auth.py` and `app/core/dependencies.py`
are). Per spec §4.2, verification decodes the token and checks
(a) signature validity — here: the token was signed with the server's
secret, (b) not expired, (c) the payload's type tag equals the expected
type; any failure yields the uniform invalid result `none`. `decode`
stands for the pure JWT parsing step (base64/JSON decoding), which the
claims never need to fix concretely. -/
def verify_token (s : Settings) (now : Int) (decode : String → Option Token)
    (tok : String) (token_type : String) : Option Payload :=
  match decode tok with
  | none => none
  | some t =>
      if t.secret == s.SECRET_KEY && decide (now < t.payload.exp)
          && t.payload.type == token_type then
        some t.payload
      else
        none

/-- Modelled from the spec: `create_access_token(data)` from
`app/utils/jwt_handler.py` (not among the provided source files). Per
spec §4.2, issuance encodes the subject, the type tag `"access"` and the
expiry `now + ttl` into a token signed with the server secret; `encode`
stands for the JWT serialisation step. -/
def create_access_token (s : Settings) (encode : Token → String) (now : Int)
    (sub : String) : String :=
  encode ⟨⟨some sub, "access", now + s.ACCESS_TOKEN_EXPIRE_MINUTES * 60⟩, s.SECRET_KEY⟩

/-- Modelled from the spec: `create_refresh_token(data)` from
`app/utils/jwt_handler.py` (not among the provided source files), with
the type tag `"refresh"` and a days-scale TTL. -/
def create_refresh_token (s : Settings) (encode : Token → String) (now : Int)
    (sub : String) : String :=
  encode ⟨⟨some sub, "refresh", now + s.REFRESH_TOKEN_EXPIRE_DAYS * 24 * 60 * 60⟩,
    s.SECRET_KEY⟩

/-- Python `str.lower()`, written by structural recursion over the
character list so that it evaluates on concrete inputs. -/
def pyLower (v : String) : String := ⟨v.data.map Char.toLower⟩

/-- The access-token cookie exactly as `login` and `refresh_token` set it. -/
def accessCookie (s : Settings) (v : String) : Cookie :=
  ⟨"access_token", v, true, s.COOKIE_SECURE, pyLower s.COOKIE_SAMESITE,
    s.ACCESS_TOKEN_EXPIRE_MINUTES * 60, "/"⟩

/-- The refresh-token cookie exactly as `login` sets it. -/
def refreshCookie (s : Settings) (v : String) : Cookie :=
  ⟨"refresh_token", v, true, s.COOKIE_SECURE, pyLower s.COOKIE_SAMESITE,
    s.REFRESH_TOKEN_EXPIRE_DAYS * 24 * 60 * 60, "/"⟩

/-! Auth route handlers (`app/routes/auth.py`). -/

/-- POST /auth/register. `hash_password` (from `app/utils/password.py`,
not among the provided source files) is kept abstract: the handler only
pipes the plaintext through it. Returns the handler outcome together
with the resulting database state. -/
def register (hash_password : String → String) (db : DB)
    (email password : String) (newId : String) (now : Int) :
    Except HTTPError UserResponse × DB :=
  match findUserByEmail db email with
  | some _ => (.error ⟨400, "Email already registered"⟩, db)
  | none =>
      let user : User := ⟨newId, email, hash_password password, now⟩
      (.ok ⟨user.id, user.email, user.createdAt⟩, ⟨db.users ++ [user], db.todos⟩)

/-- POST /auth/login. `verify_password` (from `app/utils/password.py`) is
kept abstract. On success sets the access and refresh cookies and
returns both tokens. -/
def login (s : Settings) (verify_password : String → String → Bool)
    (encode : Token → String) (now : Int) (db : DB)
    (email password : String) : Except HTTPError AuthResponse :=
  match findUserByEmail db email with
  | none => .error ⟨401, "Incorrect email or password"⟩
  | some user =>
      if !verify_password password user.password then
        .error ⟨401, "Incorrect email or password"⟩
      else
        let access := create_access_token s encode now user.id
        let refresh := create_refresh_token s encode now user.id
        .ok ⟨⟨access, refresh, "bearer"⟩, [accessCookie s access, refreshCookie s refresh]⟩

/-- POST /auth/refresh. Reads the `refresh_token` cookie, verifies it
with expected type `"refresh"`, re-resolves the subject, then mints one
new access token, updates only the `access_token` cookie, and echoes the
presented refresh token in the body. -/
def refresh_token (s : Settings) (now : Int) (decode : String → Option Token)
    (encode : Token → String) (db : DB) (cookies : List (String × String)) :
    Except HTTPError AuthResponse :=
  match lookupCookie cookies "refresh_token" with
  | none => .error ⟨401, "Refresh token not provided"⟩
  | some refresh_tok =>
      match verify_token s now decode refresh_tok "refresh" with
      | none => .error ⟨401, "Invalid or expired refresh token"⟩
      | some payload =>
          match payload.sub with
          | none => .error ⟨401, "Invalid token payload"⟩
          | some user_id =>
              match findUserById db user_id with
              | none => .error ⟨401, "User not found"⟩
              | some user =>
                  let new_access := create_access_token s encode now user.id
                  .ok ⟨⟨new_access, refresh_tok, "bearer"⟩, [accessCookie s new_access]⟩

/-! The authentication gate (`app/core/dependencies.py`). -/

/-- Python truthiness of an optional string (`if not token`): `None` and
the empty string are both falsy. -/
def pyTruthy : Option String → Bool
  | none => false
  | some v => !v.isEmpty

/-- Worker for `pySplit`: walks the character list, accumulating the
current word in reverse; whitespace ends a word, empty words are
dropped. -/
def pySplitGo : List Char → List Char → List String
  | [], acc => if acc.isEmpty then [] else [⟨acc.reverse⟩]
  | c :: cs, acc =>
      if c.isWhitespace then
        if acc.isEmpty then pySplitGo cs []
        else (⟨acc.reverse⟩ : String) :: pySplitGo cs []
      else pySplitGo cs (c :: acc)

/-- Python `str.split()` with no argument: split on runs of whitespace,
discarding empty pieces. -/
def pySplit (v : String) : List String :=
  pySplitGo v.data []

/-- `get_token_from_cookie_or_header`: cookie `access_token` first; if it
is falsy, fall back to the `Authorization` header, requiring exactly two
whitespace-separated words (the `ValueError` of tuple unpacking
otherwise) whose scheme is `bearer` case-insensitively. An early
`raise HTTPException` is an error return; the function's final
`if not token` check is applied on each non-raising path: on the truthy
cookie path it passes and the cookie value is returned, with no header
and a falsy token it fails, and on the successful header path it is
applied to the extracted word (`tok.isEmpty`, never true for a word
produced by `split()`). -/
def get_token_from_cookie_or_header (req : AuthRequest) : Except HTTPError String :=
  let token := lookupCookie req.cookies "access_token"
  if pyTruthy token then .ok (token.getD "")
  else
    match req.authorization with
    | none => .error ⟨401, "Could not validate credentials"⟩
    | some authorization =>
        match pySplit authorization with
        | [scheme, tok] =>
            if pyLower scheme != "bearer" then
              .error ⟨401, "Invalid authentication scheme"⟩
            else if tok.isEmpty then
              .error ⟨401, "Could not validate credentials"⟩
            else
              .ok tok
        | _ => .error ⟨401, "Invalid authorization header"⟩

/-- The uniform 401 the gate raises after token extraction succeeded. -/
def credentials_exception : HTTPError := ⟨401, "Could not validate credentials"⟩

/-- `get_current_user_id`: verify the extracted token with expected type
`"access"`, read the `sub` claim, and check the user still exists. -/
def get_current_user_id (s : Settings) (now : Int) (decode : String → Option Token)
    (db : DB) (req : AuthRequest) : Except HTTPError String :=
  match get_token_from_cookie_or_header req with
  | .error e => .error e
  | .ok token =>
      match verify_token s now decode token "access" with
      | none => .error credentials_exception
      | some payload =>
          match payload.sub with
          | none => .error credentials_exception
          | some user_id =>
              match findUserById db user_id with
              | none => .error credentials_exception
              | some _ => .ok user_id

/-! Todo route handlers (`app/routes/todos.py`). All run after the
authentication gate resolved `user_id`. -/

/-- GET /todos: `find_many(where={"userId": user_id})` then a stable sort
by `createdAt`, newest first (Python `sorted(..., reverse=True)`). -/
def get_todos (db : DB) (user_id : String) : List Todo :=
  (db.todos.filter (fun t => t.userId == user_id)).mergeSort
    (fun a b => b.createdAt ≤ a.createdAt)

/-- POST /todos: create with the four client fields and
`userId := user_id` from the gate. `newId`/`now` model the id and
`createdAt` the database assigns. -/
def create_todo (db : DB) (todo_data : TodoCreate) (user_id : String)
    (newId : String) (now : Int) : Todo × DB :=
  let todo : Todo := ⟨newId, todo_data.title, todo_data.completed, todo_data.dueDate,
    todo_data.pinned, user_id, now⟩
  (todo, ⟨db.users, db.todos ++ [todo]⟩)

/-- The `update_data` dict of PUT /todos/{id} applied by
`prisma.todo.update`: each field is included only when the request value
`is not None`; omitted fields keep the stored value. -/
def applyTodoUpdate (todo : Todo) (todo_data : TodoUpdate) : Todo :=
  { todo with
    title := todo_data.title.getD todo.title
    completed := todo_data.completed.getD todo.completed
    dueDate := match todo_data.dueDate with
      | none => todo.dueDate
      | some d => some d
    pinned := todo_data.pinned.getD todo.pinned }

/-- PUT /todos/{todo_id}: fetch by id (404 if absent), check ownership
(403 on mismatch), then apply the partial update. Returns the handler
outcome with the resulting database state. -/
def update_todo (db : DB) (todo_id : String) (todo_data : TodoUpdate)
    (user_id : String) : Except HTTPError Todo × DB :=
  match findTodoById db todo_id with
  | none => (.error ⟨404, "Todo not found"⟩, db)
  | some todo =>
      if todo.userId != user_id then
        (.error ⟨403, "Not authorized to update this todo"⟩, db)
      else
        let updated := applyTodoUpdate todo todo_data
        (.ok updated,
          ⟨db.users, db.todos.map (fun t => if t.id == todo_id then updated else t)⟩)

/-- DELETE /todos/{todo_id}: fetch by id (404 if absent), check ownership
(403 on mismatch), then delete. -/
def delete_todo (db : DB) (todo_id : String) (user_id : String) :
    Except HTTPError Unit × DB :=
  match findTodoById db todo_id with
  | none => (.error ⟨404, "Todo not found"⟩, db)
  | some todo =>
      if todo.userId != user_id then
        (.error ⟨403, "Not authorized to delete this todo"⟩, db)
      else
        (.ok (), ⟨db.users, db.todos.filter (fun t => !(t.id == todo_id))⟩)

/-! Concrete fixtures used by the witnesses and counterexamples. -/

/-- Fixture settings: secret `sec`, 30-minute access TTL, 7-day refresh
TTL. -/
def settings0 : Settings := ⟨"sec", 30, 7, false, "lax"⟩

/-- Fixture user. -/
def user1 : User := ⟨"u1", "alice@example.com", "pw123", 0⟩

/-- Fixture todo owned by `user1`, with a due date set. -/
def todo1 : Todo := ⟨"t1", "buy milk", false, some 50, false, "u1", 10⟩

/-- Fixture database. -/
def db1 : DB := ⟨[user1], [todo1]⟩

/-- Fixture access token for `u1`, signed with `settings0`'s secret. -/
def tokA : Token := ⟨⟨some "u1", "access", 1000⟩, "sec"⟩

/-- Fixture refresh token for `u1`, signed with `settings0`'s secret. -/
def tokR : Token := ⟨⟨some "u1", "refresh", 1000⟩, "sec"⟩

/-- Fixture JWT parser: the wire string `TA` is `tokA`, `TR` is `tokR`. -/
def decode0 : String → Option Token :=
  fun v => if v = "TA" then some tokA else if v = "TR" then some tokR else none

/-- Fixture JWT serialiser. -/
def encode0 : Token → String := fun t => t.payload.type ++ t.payload.sub.getD ""

/-- A partial update supplying only a new title. -/
def todo1Upd : TodoUpdate := { title := some "new title" }

/-- `todo1` after `todo1Upd`: only the title changed. -/
def todo1' : Todo := ⟨"t1", "new title", false, some 50, false, "u1", 10⟩

/-- C2: for every login request, the error when no user has the given
email is identical (same status code, same message) to the error when
the user exists but the password does not verify against the stored
hash. -/
theorem login_uniform_invalid_credentials (s : Settings)
    (vp : String → String → Bool) (encode : Token → String) (now : Int)
    (db : DB) (email password : String) :
    (findUserByEmail db email = none →
      login s vp encode now db email password =
        .error ⟨401, "Incorrect email or password"⟩) ∧
    (∀ u, findUserByEmail db email = some u → vp password u.password = false →
      login s vp encode now db email password =
        .error ⟨401, "Incorrect email or password"⟩) := by
  constructor
  · intro h
    simp only [login, h]
  · intro u h hv
    simp only [login, h, hv]
    rfl

/-- C2 witness: both failure shapes at concrete inputs (unknown email,
then known email with a wrong password). -/
theorem login_uniform_invalid_credentials_witness :
    login settings0 (fun a b => a == b) encode0 0 db1 "bob@example.com" "x" =
      .error ⟨401, "Incorrect email or password"⟩ ∧
    login settings0 (fun a b => a == b) encode0 0 db1 "alice@example.com" "wrong" =
      .error ⟨401, "Incorrect email or password"⟩ :=
  ⟨(login_uniform_invalid_credentials settings0 (fun a b => a == b) encode0 0 db1
      "bob@example.com" "x").1 (by rfl),
   (login_uniform_invalid_credentials settings0 (fun a b => a == b) encode0 0 db1
      "alice@example.com" "wrong").2 user1 (by rfl) (by rfl)⟩

/-- C3: for authenticated update/delete, a missing id gives 404 and an
existing todo owned by another user gives 403 — the existence check runs
first, so the two failures are distinguishable — and in both failure
cases the database is unchanged. -/
theorem update_delete_notfound_before_forbidden (db : DB)
    (todo_id user_id : String) (todo_data : TodoUpdate) :
    (findTodoById db todo_id = none →
      update_todo db todo_id todo_data user_id = (.error ⟨404, "Todo not found"⟩, db) ∧
      delete_todo db todo_id user_id = (.error ⟨404, "Todo not found"⟩, db)) ∧
    (∀ t, findTodoById db todo_id = some t → t.userId ≠ user_id →
      update_todo db todo_id todo_data user_id =
        (.error ⟨403, "Not authorized to update this todo"⟩, db) ∧
      delete_todo db todo_id user_id =
        (.error ⟨403, "Not authorized to delete this todo"⟩, db)) := by
  constructor
  · intro h
    exact ⟨by simp only [update_todo, h], by simp only [delete_todo, h]⟩
  · intro t h hne
    exact ⟨by simp [update_todo, h, hne], by simp [delete_todo, h, hne]⟩

/-- C3 witness: unknown id gives 404 and another user's id gives 403, for
both update and delete, with the database returned unchanged. -/
theorem update_delete_notfound_before_forbidden_witness :
    (update_todo db1 "zz" {} "u1" = (.error ⟨404, "Todo not found"⟩, db1) ∧
     delete_todo db1 "zz" "u1" = (.error ⟨404, "Todo not found"⟩, db1)) ∧
    (update_todo db1 "t1" {} "u2" =
      (.error ⟨403, "Not authorized to update this todo"⟩, db1) ∧
     delete_todo db1 "t1" "u2" =
      (.error ⟨403, "Not authorized to delete this todo"⟩, db1)) :=
  ⟨(update_delete_notfound_before_forbidden db1 "zz" "u1" {}).1 (by rfl),
   (update_delete_notfound_before_forbidden db1 "t1" "u2" {}).2 todo1 (by rfl)
     (by decide)⟩

/-- C5: the created todo's `userId` is the authenticated subject (the
`TodoCreate` schema has no `userId` field at all), and the stored record
is exactly the returned todo appended to the collection. -/
theorem create_todo_forces_owner (db : DB) (todo_data : TodoCreate)
    (user_id newId : String) (now : Int) :
    (create_todo db todo_data user_id newId now).1.userId = user_id ∧
    (create_todo db todo_data user_id newId now).2.todos =
      db.todos ++ [(create_todo db todo_data user_id newId now).1] :=
  ⟨rfl, rfl⟩

/-- C8: every field not supplied in an update keeps its stored value, and
`id`, `userId` and `createdAt` are unchanged by any update. -/
theorem update_preserves_unspecified_fields (db : DB)
    (todo_id user_id : String) (todo_data : TodoUpdate) (t t' : Todo)
    (hfind : findTodoById db todo_id = some t)
    (hok : (update_todo db todo_id todo_data user_id).1 = .ok t') :
    (todo_data.title = none → t'.title = t.title) ∧
    (todo_data.completed = none → t'.completed = t.completed) ∧
    (todo_data.dueDate = none → t'.dueDate = t.dueDate) ∧
    (todo_data.pinned = none → t'.pinned = t.pinned) ∧
    t'.id = t.id ∧ t'.userId = t.userId ∧ t'.createdAt = t.createdAt := by
  simp only [update_todo, hfind] at hok
  split at hok
  · exact absurd hok (by simp)
  · injection hok with hok
    subst hok
    refine ⟨?_, ?_, ?_, ?_, rfl, rfl, rfl⟩ <;> intro hnone <;>
      simp [applyTodoUpdate, hnone]

/-- C8 witness: updating `todo1` with only a new title keeps the other
fields and the identity fields. -/
theorem update_preserves_unspecified_fields_witness :
    (todo1Upd.title = none → todo1'.title = todo1.title) ∧
    (todo1Upd.completed = none → todo1'.completed = todo1.completed) ∧
    (todo1Upd.dueDate = none → todo1'.dueDate = todo1.dueDate) ∧
    (todo1Upd.pinned = none → todo1'.pinned = todo1.pinned) ∧
    todo1'.id = todo1.id ∧ todo1'.userId = todo1.userId ∧
    todo1'.createdAt = todo1.createdAt :=
  update_preserves_unspecified_fields db1 "t1" "u1" todo1Upd todo1 todo1'
    (by rfl) (by rfl)

/-- C10: an update never clears an existing due date: when the request's
`dueDate` is `none` (the shape both an omitted field and an explicit
JSON `null` arrive as, since `null` is the unspecified sentinel of
`TodoUpdate`) the stored value is unchanged, and no update input maps a
non-null stored `dueDate` back to null. -/
theorem update_never_clears_dueDate (db : DB) (todo_id user_id : String)
    (todo_data : TodoUpdate) (t t' : Todo)
    (hfind : findTodoById db todo_id = some t)
    (hok : (update_todo db todo_id todo_data user_id).1 = .ok t') :
    (todo_data.dueDate = none → t'.dueDate = t.dueDate) ∧
    (t.dueDate ≠ none → t'.dueDate ≠ none) := by
  simp only [update_todo, hfind] at hok
  split at hok
  · exact absurd hok (by simp)
  · injection hok with hok
    subst hok
    constructor
    · intro hnone
      simp [applyTodoUpdate, hnone]
    · intro hsome
      cases hd : todo_data.dueDate with
      | none => simpa [applyTodoUpdate, hd] using hsome
      | some d => simp [applyTodoUpdate, hd]

/-- C10 witness: updating `todo1` (stored due date `some 50`) with an
absent/null `dueDate` leaves the due date `some 50`. -/
theorem update_never_clears_dueDate_witness :
    (({} : TodoUpdate).dueDate = none → todo1.dueDate = todo1.dueDate) ∧
    (todo1.dueDate ≠ none → todo1.dueDate ≠ none) :=
  update_never_clears_dueDate db1 "t1" "u1" {} todo1 todo1 (by rfl) (by rfl)

/-- C4: listing returns exactly the todos whose `userId` is the
authenticated subject (a permutation of the ownership filter, so never
another user's item), sorted by `createdAt` descending. -/
theorem get_todos_scoped_and_sorted (db : DB) (user_id : String) :
    (get_todos db user_id).Perm (db.todos.filter (fun t => t.userId == user_id)) ∧
    (∀ t, t ∈ get_todos db user_id → t.userId = user_id) ∧
    (get_todos db user_id).Pairwise (fun a b => b.createdAt ≤ a.createdAt) := by
  have hperm : (get_todos db user_id).Perm
      (db.todos.filter (fun t => t.userId == user_id)) :=
    List.mergeSort_perm _ _
  refine ⟨hperm, ?_, ?_⟩
  · intro t ht
    have hmem := hperm.mem_iff.mp ht
    exact beq_iff_eq.mp (List.mem_filter.mp hmem).2
  · have hs : (get_todos db user_id).Pairwise
        (fun a b : Todo => (decide (b.createdAt ≤ a.createdAt)) = true) := by
      unfold get_todos
      exact List.sorted_mergeSort
        (fun a b c hab hbc => by
          simp only [decide_eq_true_eq] at *
          exact le_trans hbc hab)
        (fun a b => by
          simp only [Bool.or_eq_true, decide_eq_true_eq]
          exact le_total b.createdAt a.createdAt)
        _
    exact hs.imp (fun h => by simpa using h)

/-- C9 counterexample: `db1` contains a user with email
`alice@example.com`; registering `Alice@example.com` — the same email up
to letter case — succeeds instead of being rejected as already present,
because the duplicate check is an exact-match lookup. -/
theorem register_not_case_insensitive_cex :
    (∃ u, u ∈ db1.users ∧ pyLower u.email = pyLower "Alice@example.com") ∧
    (register (fun p => p) db1 "Alice@example.com" "pw" "u9" 1).1 =
      .ok ⟨"u9", "Alice@example.com", 1⟩ :=
  ⟨⟨user1, by simp [db1], by rfl⟩, rfl⟩

/-- C9 (amended): registration fails — with the duplicate-email error and
no state change — iff a user with the exactly-equal email string is
present; the comparison is exact string match (case-sensitive), not
case-insensitive. On success the new user is appended. -/
theorem register_duplicate_exact_email (hash : String → String) (db : DB)
    (email password newId : String) (now : Int) :
    (∀ u, findUserByEmail db email = some u →
      register hash db email password newId now =
        (.error ⟨400, "Email already registered"⟩, db)) ∧
    (findUserByEmail db email = none →
      register hash db email password newId now =
        (.ok ⟨newId, email, now⟩,
         ⟨db.users ++ [⟨newId, email, hash password, now⟩], db.todos⟩)) := by
  constructor
  · intro u h
    simp only [register, h]
  · intro h
    simp only [register, h]

/-- C9 (amended) witness: registering an already-present email fails with
400 and leaves the state unchanged; a fresh email is appended. -/
theorem register_duplicate_exact_email_witness :
    register (fun p => p) db1 "alice@example.com" "pw" "u9" 1 =
      (.error ⟨400, "Email already registered"⟩, db1) ∧
    register (fun p => p) db1 "carol@example.com" "pw" "u9" 1 =
      (.ok ⟨"u9", "carol@example.com", 1⟩,
       ⟨db1.users ++ [⟨"u9", "carol@example.com", "pw", 1⟩], db1.todos⟩) :=
  ⟨(register_duplicate_exact_email (fun p => p) db1 "alice@example.com" "pw" "u9" 1).1
      user1 (by rfl),
   (register_duplicate_exact_email (fun p => p) db1 "carol@example.com" "pw" "u9" 1).2
      (by rfl)⟩

/-- Helper: a token that verifies against one expected type has that type
in its payload and fails verification against every other expected
type. -/
theorem verify_token_type_exclusive (s : Settings) (now : Int)
    (decode : String → Option Token) (tok ty : String) (p : Payload)
    (h : verify_token s now decode tok ty = some p) :
    p.type = ty ∧ ∀ ty', ty' ≠ ty → verify_token s now decode tok ty' = none := by
  unfold verify_token at h
  cases hd : decode tok with
  | none => simp [hd] at h
  | some t =>
      simp only [hd] at h
      split at h
      case isTrue hcond =>
        injection h with h
        subst h
        simp only [Bool.and_eq_true, beq_iff_eq, decide_eq_true_eq] at hcond
        refine ⟨hcond.2, ?_⟩
        intro ty' hne
        have hfalse : (t.payload.type == ty') = false := by
          rw [hcond.2]
          exact beq_eq_false_iff_ne.mpr (Ne.symm hne)
        unfold verify_token
        simp only [hd]
        simp [hfalse]
      case isFalse => simp at h

/-- C1: token types are segregated. A token that verifies as type
`access`, presented in the `refresh_token` cookie to POST /auth/refresh,
is rejected with the 401 invalid-refresh-token error (the endpoint
verifies with expected type `refresh`); conversely a token that verifies
as type `refresh`, presented to the authentication gate (which verifies
with expected type `access`), yields a 401. -/
theorem token_type_segregation (s : Settings) (now : Int)
    (decode : String → Option Token) (encode : Token → String) (db : DB)
    (cookies : List (String × String)) (tok tok2 : String) (p p2 : Payload) :
    (verify_token s now decode tok "access" = some p →
      lookupCookie cookies "refresh_token" = some tok →
      refresh_token s now decode encode db cookies =
        .error ⟨401, "Invalid or expired refresh token"⟩) ∧
    (verify_token s now decode tok2 "refresh" = some p2 →
      ∃ e, get_current_user_id s now decode db ⟨[("access_token", tok2)], none⟩ =
          .error e ∧ e.status = 401) := by
  constructor
  · intro hv hc
    have hnone := (verify_token_type_exclusive s now decode tok "access" p hv).2
      "refresh" (by decide)
    simp only [refresh_token, hc, hnone]
  · intro hv
    have hnone := (verify_token_type_exclusive s now decode tok2 "refresh" p2 hv).2
      "access" (by decide)
    by_cases he : tok2.isEmpty
    · refine ⟨credentials_exception, ?_, rfl⟩
      simp [get_current_user_id, get_token_from_cookie_or_header, lookupCookie,
        pyTruthy, he, credentials_exception]
    · refine ⟨credentials_exception, ?_, rfl⟩
      simp [get_current_user_id, get_token_from_cookie_or_header, lookupCookie,
        pyTruthy, he, hnone, credentials_exception]

/-- C1 witness: the concrete access token `TA` is rejected by the refresh
endpoint, and the concrete refresh token `TR` is rejected by the
authentication gate, both with 401. -/
theorem token_type_segregation_witness :
    refresh_token settings0 0 decode0 encode0 db1 [("refresh_token", "TA")] =
      .error ⟨401, "Invalid or expired refresh token"⟩ ∧
    ∃ e, get_current_user_id settings0 0 decode0 db1 ⟨[("access_token", "TR")], none⟩ =
        .error e ∧ e.status = 401 :=
  ⟨(token_type_segregation settings0 0 decode0 encode0 db1 [("refresh_token", "TA")]
      "TA" "TR" tokA.payload tokR.payload).1 (by rfl) (by rfl),
   (token_type_segregation settings0 0 decode0 encode0 db1 [("refresh_token", "TA")]
      "TA" "TR" tokA.payload tokR.payload).2 (by rfl)⟩

/-- C7: a successful refresh echoes the presented refresh token unchanged
in the response body, sets exactly one cookie — the `access_token` cookie
carrying the newly issued access token — and never sets (rotates) the
`refresh_token` cookie. -/
theorem refresh_never_rotates (s : Settings) (now : Int)
    (decode : String → Option Token) (encode : Token → String) (db : DB)
    (cookies : List (String × String)) (tok : String) (r : AuthResponse)
    (hc : lookupCookie cookies "refresh_token" = some tok)
    (hok : refresh_token s now decode encode db cookies = .ok r) :
    r.body.refresh_token = tok ∧
    r.cookies_set = [accessCookie s r.body.access_token] ∧
    ∀ c, c ∈ r.cookies_set → c.key ≠ "refresh_token" := by
  simp only [refresh_token, hc] at hok
  split at hok
  · exact absurd hok (by simp)
  · split at hok
    · exact absurd hok (by simp)
    · split at hok
      · exact absurd hok (by simp)
      · injection hok with hok
        subst hok
        refine ⟨rfl, rfl, ?_⟩
        intro c hcmem
        simp only [List.mem_singleton] at hcmem
        subst hcmem
        simp [accessCookie]

/-- C7 witness: refreshing with the concrete refresh token `TR` yields a
response echoing `TR`, with only the access-token cookie set. -/
theorem refresh_never_rotates_witness :
    (⟨⟨"accessu1", "TR", "bearer"⟩,
      [accessCookie settings0 "accessu1"]⟩ : AuthResponse).body.refresh_token = "TR" ∧
    (⟨⟨"accessu1", "TR", "bearer"⟩,
      [accessCookie settings0 "accessu1"]⟩ : AuthResponse).cookies_set =
      [accessCookie settings0
        (⟨⟨"accessu1", "TR", "bearer"⟩,
          [accessCookie settings0 "accessu1"]⟩ : AuthResponse).body.access_token] ∧
    ∀ c, c ∈ (⟨⟨"accessu1", "TR", "bearer"⟩,
      [accessCookie settings0 "accessu1"]⟩ : AuthResponse).cookies_set →
      c.key ≠ "refresh_token" :=
  refresh_never_rotates settings0 0 decode0 encode0 db1 [("refresh_token", "TR")]
    "TR" _ (by rfl) (by rfl)

/-- Helper: every error the token-extraction step produces is one of its
three 401 errors. -/
theorem get_token_error_cases (req : AuthRequest) (e : HTTPError)
    (h : get_token_from_cookie_or_header req = .error e) :
    e = ⟨401, "Invalid authentication scheme"⟩ ∨
    e = ⟨401, "Invalid authorization header"⟩ ∨
    e = ⟨401, "Could not validate credentials"⟩ := by
  simp only [get_token_from_cookie_or_header] at h
  repeat' split at h
  all_goals first
    | (injection h with h; subst h; simp)
    | exact absurd h (by simp)

/-- C6 counterexample: three failing authentication-gate requests receive
three different detail messages, so the failure branches are not exposed
with one single generic message (only the 401 status is uniform). -/
theorem auth_gate_distinct_messages_cex :
    get_current_user_id settings0 0 decode0 db1 ⟨[], some "Basic abc"⟩ =
      .error ⟨401, "Invalid authentication scheme"⟩ ∧
    get_current_user_id settings0 0 decode0 db1 ⟨[], some "BearerOnly"⟩ =
      .error ⟨401, "Invalid authorization header"⟩ ∧
    get_current_user_id settings0 0 decode0 db1 ⟨[], none⟩ =
      .error ⟨401, "Could not validate credentials"⟩ ∧
    ("Invalid authentication scheme" : String) ≠ "Could not validate credentials" :=
  ⟨rfl, rfl, rfl, by decide⟩

/-- C6 (amended): every failing request at the authentication gate gets a
401-class error, but not one single generic message: the detail is one
of three strings, and the malformed-header and non-Bearer-scheme
sub-checks are distinguishable from the other failures. -/
theorem auth_gate_all_failures_401 (s : Settings) (now : Int)
    (decode : String → Option Token) (db : DB) (req : AuthRequest)
    (e : HTTPError)
    (h : get_current_user_id s now decode db req = .error e) :
    e.status = 401 ∧
    (e.detail = "Could not validate credentials" ∨
     e.detail = "Invalid authentication scheme" ∨
     e.detail = "Invalid authorization header") := by
  unfold get_current_user_id at h
  split at h
  case h_1 e' hextract =>
    injection h with h
    subst h
    rcases get_token_error_cases req e' hextract with h1 | h1 | h1 <;> subst h1 <;>
      exact ⟨rfl, by simp⟩
  case h_2 tok hextract =>
    repeat' split at h
    all_goals first
      | (injection h with h; subst h; exact ⟨rfl, Or.inl rfl⟩)
      | exact absurd h (by simp)

/-- C6 (amended) witness: a concrete failing request (non-Bearer scheme)
receives a 401 whose message is among the three branch messages. -/
theorem auth_gate_all_failures_401_witness :
    (⟨401, "Invalid authentication scheme"⟩ : HTTPError).status = 401 ∧
    ((⟨401, "Invalid authentication scheme"⟩ : HTTPError).detail =
        "Could not validate credentials" ∨
     (⟨401, "Invalid authentication scheme"⟩ : HTTPError).detail =
        "Invalid authentication scheme" ∨
     (⟨401, "Invalid authentication scheme"⟩ : HTTPError).detail =
        "Invalid authorization header") :=
  auth_gate_all_failures_401 settings0 0 decode0 db1 ⟨[], some "Basic abc"⟩ _ (by rfl)

end TodoApp
